import Mathlib

/-!
Shallow embedding of the model-monitoring and retraining core of
`src/ai-ml/monitoring.py` (class `ModelMonitor`), together with theorems
settling the specification claims about it.

Machine reals (numpy float64) are modelled as `ℚ`; the natural logarithm
used by the PSI computation is passed as an abstract function parameter
`log : ℚ → ℚ`, since every claim about PSI holds for an arbitrary log.
Redis lists are modelled oldest-element-first: `rpop` takes the head and
`lpush` appends at the tail of the Lean list.
-/

/-- The retraining job dictionary built in `_trigger_retraining`
(monitoring.py lines 374-379).  Its fields are exactly `model_name`,
`issues`, `metrics` and `triggered_at`; the source dictionary has no
`attempt_count` field. -/
structure RetrainingJob where
  model_name : String
  issues : List String
  metrics : List (String × ℚ)
  triggered_at : String
deriving DecidableEq, Repr

/-- A queue payload as it sits on the redis list.  The producer stores
`str(retraining_data)` (line 381), i.e. a Python expression string; the
consumer runs `eval(job_data)` (line 491).  `dictLit j` is the repr of a
job dictionary; `exprPayload s` is any other syntactically valid Python
expression `s`, which `eval` will execute. -/
inductive Payload where
  | dictLit : RetrainingJob → Payload
  | exprPayload : String → Payload
deriving DecidableEq, Repr

/-- What evaluating a payload with Python `eval` produces: possibly a job
value, and the list of side effects the evaluation itself ran. -/
structure EvalOutcome where
  value : Option RetrainingJob
  sideEffects : List String
deriving DecidableEq, Repr

/-- `eval(job_data)` at monitoring.py line 491: a dict-literal payload
evaluates with no side effects to the job; any other expression payload is
executed (its side effects run) and does not yield a job value. -/
def evalDeserialize : Payload → EvalOutcome
  | Payload.dictLit j => { value := some j, sideEffects := [] }
  | Payload.exprPayload s => { value := none, sideEffects := [s] }

/-- Typed deserialization failure. -/
inductive DeserializeError where
  | malformed
deriving DecidableEq, Repr

/-- Modelled from the spec: the "strict deserialization that rejects
malformed payloads with a typed error rather than executing them"
(spec §6 and §9); this operation does not exist in the source, which uses
`eval` instead. -/
def strictDeserialize : Payload → Except DeserializeError RetrainingJob
  | Payload.dictLit j => Except.ok j
  | Payload.exprPayload _ => Except.error DeserializeError.malformed

/-- State of the retraining queue drain: the redis list `retraining_queue`
(oldest first) and the log of model names processed so far (the log call at
line 494, one entry per loop iteration that reached `_run_retraining`). -/
structure QueueState where
  queue : List Payload
  processed : List String
deriving DecidableEq, Repr

/-- One iteration of the `while True` body of `_process_retraining_queue`
(monitoring.py lines 485-504).  `ok` is the outcome of the
`_run_retraining` call for this iteration.  Returns `none` when the loop
ends (either `rpop` found the queue empty and the loop breaks, or the
payload did not evaluate to a job dictionary and the resulting exception is
caught by the `except` at line 506, ending the drain).  On failure the
original payload string `job_data` is pushed back unchanged (line 504). -/
def processStep (ok : Bool) (st : QueueState) : Option QueueState :=
  match st.queue with
  | [] => none
  | p :: rest =>
    match (evalDeserialize p).value with
    | none => none
    | some job =>
      if ok then
        some { queue := rest, processed := st.processed ++ [job.model_name] }
      else
        some { queue := rest ++ [p], processed := st.processed ++ [job.model_name] }

/-- Run the drain loop of `_process_retraining_queue` for at most `fuel`
iterations.  `trainer n` is the outcome of the n-th `_run_retraining`
invocation (the source loop has no bound of its own; the fuel lets us
observe finite prefixes of its behaviour).  The boolean is `true` when the
loop actually ended within the fuel. -/
def processQueue (trainer : Nat → Bool) : Nat → QueueState → QueueState × Bool
  | 0, st => (st, false)
  | Nat.succ n, st =>
    match processStep (trainer st.processed.length) st with
    | none => (st, true)
    | some st2 => processQueue trainer n st2

/-- A concrete retraining job used to evaluate the queue model. -/
def sampleJob : RetrainingJob :=
  { model_name := "price_prediction"
    issues := ["MAPE too high: 20.00%"]
    metrics := [("mape", 20)]
    triggered_at := "2026-01-01T00:00:00" }

/-- The initial drain state holding the single sample job. -/
def sampleDrainState : QueueState :=
  { queue := [Payload.dictLit sampleJob], processed := [] }

/-- A trainer for which every `_run_retraining` invocation fails. -/
def alwaysFailTrainer : Nat → Bool := fun _ => false

/-- A per-model monitoring result dictionary.  Each `Option` field mirrors
the presence or absence of the corresponding key in the Python dict (the
three result shapes built at lines 77-81, 97-102 and 123-129). -/
structure MonitoringResult where
  status : String
  needs_retraining : Bool
  sample_count : Option Nat := none
  issues : Option (List String) := none
  metrics : Option (List (String × ℚ)) := none
  error : Option String := none
deriving DecidableEq, Repr

/-- The registered model names iterated by `monitor_models` (line 65). -/
def model_names : List String :=
  ["price_prediction", "disease_detection", "recommendations"]

/-- `self.thresholds[model]["min_samples"]` (lines 34-48).  The catch-all
returns 0; the source only looks up the three registered names. -/
def min_samples : String → Nat
  | "price_prediction" => 1000
  | "disease_detection" => 500
  | "recommendations" => 1000
  | _ => 0

/-- The error result built in the `except` branch of `monitor_models`
(lines 77-81): keys `status`, `error`, `needs_retraining` only. -/
def error_result (e : String) : MonitoringResult :=
  { status := "error", error := some e, needs_retraining := false }

/-- The result recorded for one model by the loop body of `monitor_models`
(lines 66-81): the model evaluation's own result, or the error result when
the evaluation raised.  `ev` abstracts `_monitor_single_model` together
with the external stores it reads. -/
def resultOf (ev : String → Except String MonitoringResult) (m : String) :
    MonitoringResult :=
  match ev m with
  | Except.ok r => r
  | Except.error e => error_result e

/-- Denotation of the `monitor_models` loop (lines 63-87): the
`monitoring_results` mapping in iteration order, and the list of models for
which `_trigger_retraining` was invoked (exactly those whose own result has
`needs_retraining` true; an errored model never triggers, lines 71-73). -/
def monitor_models (ev : String → Except String MonitoringResult) :
    List (String × MonitoringResult) × List String :=
  (model_names.map (fun m => (m, resultOf ev m)),
   model_names.filter (fun m => (resultOf ev m).needs_retraining))

/-- The frame of recent predictions fetched by `_get_recent_predictions`:
row count and numeric columns. -/
structure DataFrame where
  length : Nat
  col : String → List ℚ

/-- `_monitor_single_model` (monitoring.py lines 89-129).
`predictions_data` is the fetched frame; `family_metrics` stands for the
model-specific metric computation and threshold check selected by the
if/elif chain at lines 107-117 (returning the computed metric set and its
issues); `drift_issues` stands for `_check_feature_drift` at line 120,
whose pure core is embedded separately below.  Both are parameters because
in the source they read external stores. -/
def monitor_single_model (model_name : String) (predictions_data : DataFrame)
    (family_metrics : String → DataFrame → List (String × ℚ) × List String)
    (drift_issues : String → List String) : MonitoringResult :=
  if predictions_data.length < min_samples model_name then
    { status := "insufficient_data"
      sample_count := some predictions_data.length
      needs_retraining := false
      issues := some [] }
  else
    let fam := family_metrics model_name predictions_data
    let issues := fam.2 ++ drift_issues model_name
    { status := "completed"
      sample_count := some predictions_data.length
      metrics := some fam.1
      issues := some issues
      needs_retraining := decide (issues.length > 0) }

/-- A concrete frame of 50 price observations (below every minimum sample
count). -/
def smallFrame : DataFrame :=
  { length := 50, col := fun _ => [] }

/-- A trivial stand-in for the model-family metric branch, used only to
instantiate theorems at concrete inputs. -/
def zeroFamilyMetrics : String → DataFrame → List (String × ℚ) × List String :=
  fun _ _ => ([], [])

/-- A trivial stand-in for the drift check, used only to instantiate
theorems at concrete inputs. -/
def noDriftIssues : String → List String := fun _ => []

/-- A concrete healthy evaluation result used to instantiate theorems. -/
def okResult : MonitoringResult :=
  { status := "completed"
    sample_count := some 1200
    needs_retraining := true
    issues := some ["MAPE too high: 20.00%"]
    metrics := some [("mape", 20)] }

/-- A concrete evaluation map where the disease model's evaluation raises
and the other models evaluate normally. -/
def oneErrorEval : String → Except String MonitoringResult :=
  fun m =>
    if m = "disease_detection" then Except.error "db connection refused"
    else Except.ok okResult

/-- A concrete evaluation map where the price model's frame is too small
to monitor. -/
def smallSampleEval : String → Except String MonitoringResult :=
  fun m =>
    if m = "price_prediction" then
      Except.ok (monitor_single_model "price_prediction" smallFrame
        zeroFamilyMetrics noDriftIssues)
    else Except.ok okResult

/-- ε = 1e-7, the guard constant of line 154. -/
def eps7 : ℚ := 1 / 10000000

/-- `np.mean` of a list of rationals. -/
def mean (xs : List ℚ) : ℚ := xs.sum / xs.length

/-- The MAPE of line 154, exactly as the source computes it:
`np.mean(np.abs((actual - predicted) / (actual + 1e-7))) * 100`.
The enclosing `_calculate_price_metrics` (lines 145-171) also computes
RMSE and directional accuracy, which no claim touches. -/
def code_mape (actual predicted : List ℚ) : ℚ :=
  mean ((actual.zip predicted).map (fun ap => |(ap.1 - ap.2) / (ap.1 + eps7)|)) * 100

/-- Modelled from the spec: `MAPE = mean(|actual−predicted| / (|actual|+ε)) ×100`
(spec §4.1), with the denominator `|actual| + ε`. -/
def spec_mape (actual predicted : List ℚ) : ℚ :=
  mean ((actual.zip predicted).map (fun ap => |ap.1 - ap.2| / (|ap.1| + eps7))) * 100

/-- `np.min` of a nonempty array; `none` on the empty array (where numpy
raises instead). -/
def listMin : List ℚ → Option ℚ
  | [] => none
  | x :: xs => some (xs.foldl min x)

/-- `np.max` of a nonempty array; `none` on the empty array. -/
def listMax : List ℚ → Option ℚ
  | [] => none
  | x :: xs => some (xs.foldl max x)

/-- `np.linspace a b n`: n evenly spaced points from a to b inclusive. -/
def linspace (a b : ℚ) (n : Nat) : List ℚ :=
  (List.range n).map (fun i => a + (b - a) * i / ((n : ℚ) - 1))

/-- `np.histogram(xs, bins=edges, density=True)`: for each consecutive pair
of edges, the count of samples in the half-open bin (the last bin is
closed), divided by `len(xs)` times the bin width. -/
def histDensity (xs : List ℚ) (edges : List ℚ) : List ℚ :=
  let pairs := edges.zip edges.tail
  let k := pairs.length
  (pairs.enum).map (fun ie =>
    let lo := ie.2.1
    let hi := ie.2.2
    let cnt := (xs.filter (fun x =>
      decide (lo ≤ x) &&
        (if ie.1 = k - 1 then decide (x ≤ hi) else decide (x < hi)))).length
    (cnt : ℚ) / ((xs.length : ℚ) * (hi - lo)))

/-- `_calculate_psi` (monitoring.py lines 293-319).  `log` abstracts
`np.log`.  The final `except` branch (reached e.g. when `np.min` of an
empty array raises) returns 0. -/
def psiCalc (log : ℚ → ℚ) (expected actual : List ℚ) (bins : Nat) : ℚ :=
  match listMin expected, listMax expected, listMin actual, listMax actual with
  | some emin, some emax, some amin, some amax =>
    let min_val := min emin amin
    let max_val := max emax amax
    if min_val = max_val then 0
    else
      let bins_edges := linspace min_val max_val (bins + 1)
      let expected_dist := (histDensity expected bins_edges).map
        (fun d => d + 1 / 1000000)
      let actual_dist := (histDensity actual bins_edges).map
        (fun d => d + 1 / 1000000)
      ((actual_dist.zip expected_dist).map
        (fun p => (p.1 - p.2) * log (p.1 / p.2))).sum
  | _, _, _, _ => 0

/-- The `df.describe()` summary of a feature window: per feature column,
the vector of summary statistics. -/
abbrev Stats := List (String × List ℚ)

/-- The `model_features` store and the pandas summaries derived from it,
abstracted as read-only collaborators (the SQL reads at lines 325-332 and
347-354): per model, the 30-day window rows, its `describe()` summary, and
the 7-day current `describe()` summary. -/
structure FeatureDb where
  window30 : String → List (List ℚ)
  describe30 : String → Stats
  describe7 : String → Stats

/-- Redis GET on the baseline store (an association list keyed by the
baseline key; the JSON round-trip `read_json ∘ to_json` is the identity in
this model). -/
def storeGet : List (String × Stats) → String → Option Stats
  | [], _ => none
  | p :: rest, k => if p.1 = k then some p.2 else storeGet rest k

/-- Redis SET on the baseline store: the new binding shadows any old one. -/
def storeSet (store : List (String × Stats)) (k : String) (v : Stats) :
    List (String × Stats) :=
  (k, v) :: store

/-- The redis key `baseline_features:{model_name}` (line 262). -/
def baseline_key (m : String) : String := "baseline_features:" ++ m

/-- `self.thresholds[model]["drift_threshold"]` (lines 34-48): only the
price model has the key; looking it up for any other model raises a
`KeyError`. -/
def drift_threshold : String → Option ℚ
  | "price_prediction" => some (1 / 10)
  | _ => none

/-- `_store_baseline_features` (monitoring.py lines 321-341): fetch the
30-day feature window; when the frame is non-empty, SET its `describe()`
summary under the baseline key (one write); when empty, do nothing.
Returns the new store and the number of redis writes performed. -/
def store_baseline_features (db : FeatureDb) (m : String)
    (store : List (String × Stats)) : List (String × Stats) × Nat :=
  if db.window30 m = [] then (store, 0)
  else (storeSet store (baseline_key m) (db.describe30 m), 1)

/-- The issue string appended at line 286 (the formatted PSI value is
elided). -/
def driftIssue (feature : String) : String := "Feature drift in " ++ feature

/-- Look up one feature column in a stats summary. -/
def storeGetCol : Stats → String → Option (List ℚ)
  | [], _ => none
  | p :: rest, f => if p.1 = f then some p.2 else storeGetCol rest f

/-- The per-feature PSI loop of `_check_feature_drift` (lines 276-286):
for each baseline feature also present in the current stats, compute the
PSI; a missing `drift_threshold` key raises, which the `except` at line 288
catches, so the issues accumulated so far are returned. -/
def driftLoop (log : ℚ → ℚ) (thr : Option ℚ) (current : Stats) :
    List (String × List ℚ) → List String
  | [] => []
  | fv :: rest =>
    match storeGetCol current fv.1 with
    | none => driftLoop log thr current rest
    | some avals =>
      let psi := psiCalc log fv.2 avals 10
      match thr with
      | none => []
      | some t =>
        (if psi > t then [driftIssue fv.1] else []) ++
          driftLoop log thr current rest

/-- Result of one `_check_feature_drift` call: the issues returned, the
baseline store afterwards, and the number of baseline writes performed. -/
structure DriftCheckOut where
  issues : List String
  store : List (String × Stats)
  writes : Nat
deriving Repr

/-- `_check_feature_drift` (monitoring.py lines 256-291): GET the baseline;
when absent, call `_store_baseline_features` and return no issues; when
present, compare it to the current 7-day stats feature by feature with the
PSI loop, performing no write. -/
def check_feature_drift (db : FeatureDb) (log : ℚ → ℚ) (m : String)
    (store : List (String × Stats)) : DriftCheckOut :=
  match storeGet store (baseline_key m) with
  | none =>
    let s := store_baseline_features db m store
    { issues := [], store := s.1, writes := s.2 }
  | some baseline =>
    { issues := driftLoop log (drift_threshold m) (db.describe7 m) baseline
      store := store
      writes := 0 }

/-- A feature database whose 30-day window is empty for every model. -/
def emptyFeatureDb : FeatureDb :=
  { window30 := fun _ => []
    describe30 := fun _ => []
    describe7 := fun _ => [] }

/-- A feature database with one observed price feature. -/
def priceFeatureDb : FeatureDb :=
  { window30 := fun _ => [[100], [102], [104]]
    describe30 := fun _ => [("price", [100, 102, 104])]
    describe7 := fun _ => [("price", [100, 102, 104])] }

/-- An invocation of the training collaborator.  `run_pipeline` (called at
line 515) takes no model argument, recorded here by the `modelArg` field. -/
structure PipelineCall where
  modelArg : Option String
deriving DecidableEq, Repr

/-- The result dictionary of `ml_pipeline.run_pipeline`. -/
structure PipelineResult where
  status : String
  evaluation_results : String
  error : Option String
deriving DecidableEq, Repr

/-- What one `_run_retraining` call did: the pipeline invocation it made,
the notification it sent, and its returned success flag. -/
structure RetrainOutcome where
  call : PipelineCall
  notifySubject : String
  notifyBody : String
  success : Bool
deriving DecidableEq, Repr

/-- `_run_retraining` (monitoring.py lines 509-534): always invokes
`self.ml_pipeline.run_pipeline()` with no model argument; `model_name`
appears only in the log and notification text.  `pipeline` abstracts the
external trainer collaborator. -/
def run_retraining (model_name : String)
    (pipeline : PipelineCall → PipelineResult) : RetrainOutcome :=
  let call : PipelineCall := { modelArg := none }
  let result := pipeline call
  if result.status = "success" then
    { call := call
      notifySubject := "Model Retrained Successfully: " ++ model_name
      notifyBody := "Retraining completed with metrics: " ++ result.evaluation_results
      success := true }
  else
    { call := call
      notifySubject := "Model Retraining Failed: " ++ model_name
      notifyBody := "Error: " ++ (result.error.getD "Unknown error")
      success := false }

/-! ## Helper lemmas -/

/-- The PSI summand vanishes when the two compared densities are the same
list. -/
theorem psi_zip_self_sum (log : ℚ → ℚ) (l : List ℚ) :
    ((l.zip l).map (fun p => (p.1 - p.2) * log (p.1 / p.2))).sum = 0 := by
  induction l with
  | nil => rfl
  | cons x xs ih => simp [List.zip_cons_cons, ih]

/-- Folding `min` over a constant list is a no-op. -/
theorem foldl_min_const (c : ℚ) (xs : List ℚ) (h : ∀ x ∈ xs, x = c) :
    xs.foldl min c = c := by
  induction xs with
  | nil => rfl
  | cons a as ih =>
    have ha : a = c := h a (by simp)
    rw [List.foldl_cons, ha, min_self]
    exact ih (fun x hx => h x (by simp [hx]))

/-- Folding `max` over a constant list is a no-op. -/
theorem foldl_max_const (c : ℚ) (xs : List ℚ) (h : ∀ x ∈ xs, x = c) :
    xs.foldl max c = c := by
  induction xs with
  | nil => rfl
  | cons a as ih =>
    have ha : a = c := h a (by simp)
    rw [List.foldl_cons, ha, max_self]
    exact ih (fun x hx => h x (by simp [hx]))

/-- `np.min` of a nonempty constant array. -/
theorem listMin_const (c : ℚ) (xs : List ℚ) (hne : xs ≠ [])
    (h : ∀ x ∈ xs, x = c) : listMin xs = some c := by
  cases xs with
  | nil => exact absurd rfl hne
  | cons a as =>
    have ha : a = c := h a (by simp)
    simp only [listMin, ha]
    rw [foldl_min_const c as (fun x hx => h x (by simp [hx]))]

/-- `np.max` of a nonempty constant array. -/
theorem listMax_const (c : ℚ) (xs : List ℚ) (hne : xs ≠ [])
    (h : ∀ x ∈ xs, x = c) : listMax xs = some c := by
  cases xs with
  | nil => exact absurd rfl hne
  | cons a as =>
    have ha : a = c := h a (by simp)
    simp only [listMax, ha]
    rw [foldl_max_const c as (fun x hx => h x (by simp [hx]))]

/-- Invariant of the drain loop when every training run fails: the single
sample job is still queued after any number of iterations, it has been
processed once per iteration, and the loop has not ended. -/
theorem processQueue_fail_inv (n : Nat) (pr : List String) :
    processQueue alwaysFailTrainer n
      { queue := [Payload.dictLit sampleJob], processed := pr } =
    ({ queue := [Payload.dictLit sampleJob],
       processed := pr ++ List.replicate n "price_prediction" }, false) := by
  induction n generalizing pr with
  | zero => simp [processQueue]
  | succ k ih =>
    have h1 : processStep (alwaysFailTrainer pr.length)
        { queue := [Payload.dictLit sampleJob], processed := pr } =
        some { queue := [Payload.dictLit sampleJob],
               processed := pr ++ ["price_prediction"] } := rfl
    rw [processQueue, h1]
    show processQueue alwaysFailTrainer k
        { queue := [Payload.dictLit sampleJob],
          processed := pr ++ ["price_prediction"] } =
      ({ queue := [Payload.dictLit sampleJob],
         processed := pr ++ List.replicate (k + 1) "price_prediction" }, false)
    rw [ih]
    simp [List.replicate_succ]

/-- Redis GET after SET of the same key returns the new value. -/
theorem storeGet_storeSet_self (store : List (String × Stats)) (k : String)
    (v : Stats) : storeGet (storeSet store k v) k = some v := by
  simp [storeGet, storeSet]

/-! ## Claim theorems -/

/-- C1: refuted by the code — the dequeued payload is NOT deserialized
strictly.  `_process_retraining_queue` passes the payload to Python `eval`
(line 491), so an expression payload is executed (its side effect runs and
no typed error is produced), whereas the spec-modelled strict deserializer
rejects the same payload with a typed error and runs nothing. -/
theorem queue_payload_is_executed_not_parsed :
    (evalDeserialize (Payload.exprPayload "__import__(os).system(rm)")).sideEffects =
      ["__import__(os).system(rm)"] ∧
    (evalDeserialize (Payload.exprPayload "__import__(os).system(rm)")).value = none ∧
    strictDeserialize (Payload.exprPayload "__import__(os).system(rm)") =
      Except.error DeserializeError.malformed ∧
    (strictDeserialize (Payload.dictLit sampleJob) = Except.ok sampleJob ∧
      (evalDeserialize (Payload.dictLit sampleJob)).value = some sampleJob) :=
  ⟨rfl, rfl, rfl, rfl, rfl⟩

/-- C2: refuted by the code — when a dequeued job's training run fails, the
drain loop pushes the original serialized job back unchanged (line 504).
The job dictionary built at lines 374-379 has no `attempt_count` field, so
nothing is incremented: after one failed iteration the queue again holds
the byte-identical payload (it does reappear at the tail, but with every
field unchanged). -/
theorem failed_job_requeued_unchanged :
    processQueue alwaysFailTrainer 1 sampleDrainState =
      ({ queue := [Payload.dictLit sampleJob],
         processed := ["price_prediction"] }, false) := by
  have e : sampleDrainState =
      { queue := [Payload.dictLit sampleJob], processed := [] } := rfl
  rw [e, processQueue_fail_inv 1 []]
  rfl

/-- C3: refuted by the code — there is no maximum attempt count anywhere in
`_process_retraining_queue`: a job whose training always fails is still in
the queue after any number n of drain iterations (and the drain loop has
not even ended), so it is never dropped and never becomes absent from later
dequeues. -/
theorem always_failing_job_is_never_dropped (n : Nat) :
    (processQueue alwaysFailTrainer n sampleDrainState).1.queue =
      [Payload.dictLit sampleJob] ∧
    (processQueue alwaysFailTrainer n sampleDrainState).2 = false := by
  have e : sampleDrainState =
      { queue := [Payload.dictLit sampleJob], processed := [] } := rfl
  rw [e, processQueue_fail_inv n []]
  exact ⟨rfl, rfl⟩

/-- C4: refuted by the code — the drain phase does not bound itself to the
jobs present at drain start: with a single queued job whose training always
fails, after n loop iterations that one job has been run n times within the
same drain (the processed log holds n copies of its model name) and the
loop has not terminated. -/
theorem drain_reprocesses_requeued_jobs (n : Nat) :
    (processQueue alwaysFailTrainer n sampleDrainState).1.processed =
      List.replicate n "price_prediction" ∧
    (processQueue alwaysFailTrainer n sampleDrainState).2 = false := by
  have e : sampleDrainState =
      { queue := [Payload.dictLit sampleJob], processed := [] } := rfl
  rw [e, processQueue_fail_inv n []]
  exact ⟨by simp, rfl⟩

/-- C5: when the fetched observation count is below the model's configured
`min_samples`, `_monitor_single_model` returns the `insufficient_data`
result before any metric computation runs (the result carries no metrics
key and is independent of the metric and drift computations), its
`needs_retraining` is false, and `monitor_models` does not invoke
`_trigger_retraining` for that model. -/
theorem insufficient_data_short_circuits (m : String) (df : DataFrame)
    (fm : String → DataFrame → List (String × ℚ) × List String)
    (di : String → List String)
    (ev : String → Except String MonitoringResult)
    (hlen : df.length < min_samples m)
    (hev : ev m = Except.ok (monitor_single_model m df fm di)) :
    monitor_single_model m df fm di =
      { status := "insufficient_data", sample_count := some df.length,
        needs_retraining := false, issues := some [] } ∧
    (monitor_single_model m df fm di).metrics = none ∧
    (∀ fm2 di2, monitor_single_model m df fm2 di2 =
      monitor_single_model m df fm di) ∧
    m ∉ (monitor_models ev).2 := by
  have h1 : monitor_single_model m df fm di =
      { status := "insufficient_data", sample_count := some df.length,
        needs_retraining := false, issues := some [] } := by
    simp [monitor_single_model, hlen]
  refine ⟨h1, by rw [h1], ?_, ?_⟩
  · intro fm2 di2
    rw [h1]
    simp [monitor_single_model, hlen]
  · intro hmem
    have hp := (List.mem_filter.mp hmem).2
    rw [resultOf, hev] at hp
    rw [h1] at hp
    simp at hp

/-- Witness for C5: the concrete 50-row price frame is below the 1000
minimum, and no retraining is triggered for the price model. -/
theorem insufficient_data_short_circuits_witness :
    (smallFrame.length < min_samples "price_prediction" ∧
      smallSampleEval "price_prediction" =
        Except.ok (monitor_single_model "price_prediction" smallFrame
          zeroFamilyMetrics noDriftIssues)) ∧
    "price_prediction" ∉ (monitor_models smallSampleEval).2 :=
  ⟨⟨by decide, rfl⟩,
   (insufficient_data_short_circuits "price_prediction" smallFrame
     zeroFamilyMetrics noDriftIssues smallSampleEval (by decide) rfl).2.2.2⟩

/-- C6: an error raised while evaluating one registered model is converted
into that model's own result with status "error" and `needs_retraining`
false; retraining is not triggered for it, and the results mapping still
contains every registered model's own evaluation result, so the cycle is
not aborted. -/
theorem model_errors_are_isolated
    (ev : String → Except String MonitoringResult) (m e : String)
    (hm : m ∈ model_names) (he : ev m = Except.error e) :
    resultOf ev m = error_result e ∧
    (resultOf ev m).status = "error" ∧
    (resultOf ev m).needs_retraining = false ∧
    (m, error_result e) ∈ (monitor_models ev).1 ∧
    m ∉ (monitor_models ev).2 ∧
    (∀ m2, m2 ∈ model_names → (m2, resultOf ev m2) ∈ (monitor_models ev).1) := by
  have h1 : resultOf ev m = error_result e := by
    rw [resultOf, he]
  refine ⟨h1, by rw [h1]; rfl, by rw [h1]; rfl, ?_, ?_, ?_⟩
  · exact List.mem_map.mpr ⟨m, hm, by rw [h1]⟩
  · intro hmem
    have hp := (List.mem_filter.mp hmem).2
    rw [h1] at hp
    simp [error_result] at hp
  · intro m2 hm2
    exact List.mem_map.mpr ⟨m2, hm2, rfl⟩

/-- Witness for C6: with the disease model's evaluation raising, its entry
is the error result and the other two models' own results are present. -/
theorem model_errors_are_isolated_witness :
    ("disease_detection" ∈ model_names ∧
      oneErrorEval "disease_detection" = Except.error "db connection refused") ∧
    (("disease_detection", error_result "db connection refused") ∈
        (monitor_models oneErrorEval).1 ∧
      "disease_detection" ∉ (monitor_models oneErrorEval).2) :=
  ⟨⟨by decide, rfl⟩,
   ⟨(model_errors_are_isolated oneErrorEval "disease_detection"
       "db connection refused" (by decide) rfl).2.2.2.1,
    (model_errors_are_isolated oneErrorEval "disease_detection"
       "db connection refused" (by decide) rfl).2.2.2.2.1⟩⟩

/-- C7 counterexample: at actual = [-1], predicted = [0] the MAPE the code
computes (line 154: ε added to the raw actual, absolute value of the whole
quotient) differs from the spec's formula whose denominator is
|actual| + ε. -/
theorem code_mape_differs_from_spec_formula :
    code_mape [-1] [0] ≠ spec_mape [-1] [0] := by
  norm_num [code_mape, spec_mape, mean, eps7]
  rw [abs_of_pos (by norm_num : (0 : ℚ) < 10000000 / 9999999)]
  norm_num

/-- C7 (amended): the computed MAPE equals
mean(|actual − predicted| / |actual + ε|) × 100 with ε = 1e-7 — the ε is
added to the raw actual value and the absolute value is taken of the whole
quotient, so the denominator is |actual + ε| rather than |actual| + ε. -/
theorem code_mape_closed_form (actual predicted : List ℚ) :
    code_mape actual predicted =
      mean ((actual.zip predicted).map
        (fun ap => |ap.1 - ap.2| / |ap.1 + eps7|)) * 100 := by
  simp [code_mape, abs_div]

/-- C8 counterexample: for a model with no stored baseline whose 30-day
feature window is empty, the drift check returns no issues but performs
zero baseline writes, not exactly one. -/
theorem cold_start_empty_window_writes_nothing :
    storeGet [] (baseline_key "price_prediction") = none ∧
    (check_feature_drift emptyFeatureDb (fun q => q) "price_prediction" []).issues = [] ∧
    (check_feature_drift emptyFeatureDb (fun q => q) "price_prediction" []).writes ≠ 1 :=
  ⟨rfl, rfl, by decide⟩

/-- C8 (amended): for a model with no stored baseline, a drift check
returns no issues and performs at most one baseline write — exactly one
when the model's 30-day feature window is non-empty (and a second check
against the now-existing baseline performs no write), and zero when the
window is empty; any drift check that finds a stored baseline never
overwrites it. -/
theorem cold_start_baseline_write_behavior (db : FeatureDb) (log : ℚ → ℚ)
    (m : String) (store : List (String × Stats))
    (h : storeGet store (baseline_key m) = none) :
    (check_feature_drift db log m store).issues = [] ∧
    (check_feature_drift db log m store).writes ≤ 1 ∧
    (db.window30 m ≠ [] →
      (check_feature_drift db log m store).writes = 1 ∧
      (check_feature_drift db log m
        (check_feature_drift db log m store).store).writes = 0) ∧
    (∀ store2 b, storeGet store2 (baseline_key m) = some b →
      (check_feature_drift db log m store2).writes = 0) := by
  have hgen : ∀ store2 b, storeGet store2 (baseline_key m) = some b →
      (check_feature_drift db log m store2).writes = 0 := by
    intro s2 b hb
    unfold check_feature_drift
    rw [hb]
  have hc : check_feature_drift db log m store =
      { issues := [], store := (store_baseline_features db m store).1,
        writes := (store_baseline_features db m store).2 } := by
    unfold check_feature_drift
    rw [h]
  by_cases hw : db.window30 m = []
  · have hs : store_baseline_features db m store = (store, 0) := by
      simp [store_baseline_features, hw]
    rw [hc, hs]
    exact ⟨rfl, by simp, fun hne => absurd hw hne, hgen⟩
  · have hs : store_baseline_features db m store =
        (storeSet store (baseline_key m) (db.describe30 m), 1) := by
      simp [store_baseline_features, hw]
    rw [hc, hs]
    refine ⟨rfl, by simp, fun _ => ⟨rfl, ?_⟩, hgen⟩
    exact hgen _ _ (storeGet_storeSet_self store (baseline_key m)
      (db.describe30 m))

/-- Witness for C8 at a database with a non-empty price feature window:
the first check writes the baseline once and the second check does not
rewrite it. -/
theorem cold_start_baseline_write_behavior_witness :
    (storeGet [] (baseline_key "price_prediction") = none ∧
      priceFeatureDb.window30 "price_prediction" ≠ []) ∧
    ((check_feature_drift priceFeatureDb (fun q => q) "price_prediction" []).writes = 1 ∧
      (check_feature_drift priceFeatureDb (fun q => q) "price_prediction"
        (check_feature_drift priceFeatureDb (fun q => q)
          "price_prediction" []).store).writes = 0) :=
  ⟨⟨rfl, by decide⟩,
   (cold_start_baseline_write_behavior priceFeatureDb (fun q => q)
     "price_prediction" [] rfl).2.2.1 (by decide)⟩

/-- C9: for every sample array and every bin count ≥ 1 (and every log
function), the PSI of an array against itself is exactly 0; and when the
two compared arrays share a single constant value (so that the combined
min equals the combined max), the PSI is 0. -/
theorem psi_self_and_constant_zero (log : ℚ → ℚ) (xs e a : List ℚ) (c : ℚ)
    (bins : Nat) (_hb : 1 ≤ bins) (hne : e ≠ []) (hna : a ≠ [])
    (hec : ∀ x ∈ e, x = c) (hac : ∀ x ∈ a, x = c) :
    psiCalc log xs xs bins = 0 ∧ psiCalc log e a bins = 0 := by
  constructor
  · unfold psiCalc
    cases h1 : listMin xs with
    | none => cases h2 : listMax xs <;> simp
    | some mn =>
      cases h2 : listMax xs with
      | none => simp
      | some mx =>
        simp only [min_self, max_self]
        split
        · rfl
        · exact psi_zip_self_sum log _
  · unfold psiCalc
    rw [listMin_const c e hne hec, listMax_const c e hne hec,
        listMin_const c a hna hac, listMax_const c a hna hac]
    simp

/-- Witness for C9: self-PSI of a non-constant array and PSI between two
constant arrays, at 10 bins with the identity standing in for log. -/
theorem psi_self_and_constant_zero_witness :
    ((1 ≤ 10 ∧ ([(5 : ℚ)] ≠ [] ∧ ([(5 : ℚ), 5] ≠ []))) ∧
      ((∀ x ∈ [(5 : ℚ)], x = 5) ∧ (∀ x ∈ [(5 : ℚ), 5], x = 5))) ∧
    (psiCalc (fun q => q) [1, 2, 3] [1, 2, 3] 10 = 0 ∧
      psiCalc (fun q => q) [5] [5, 5] 10 = 0) :=
  ⟨⟨⟨by decide, by decide, by decide⟩, ⟨by decide, by decide⟩⟩,
   psi_self_and_constant_zero (fun q => q) [1, 2, 3] [5] [5, 5] 5 10
     (by decide) (by decide) (by decide) (by decide) (by decide)⟩

/-- C10: for any two dequeued jobs that differ only in their model name,
`_run_retraining` makes the identical training invocation — it always calls
`run_pipeline()` with no model argument — and returns the same success
flag; the model name only reaches the notification text. -/
theorem retraining_ignores_model_identity (j1 j2 : RetrainingJob)
    (pipeline : PipelineCall → PipelineResult) :
    (run_retraining j1.model_name pipeline).call =
      (run_retraining j2.model_name pipeline).call ∧
    (run_retraining j1.model_name pipeline).call.modelArg = none ∧
    (run_retraining j1.model_name pipeline).success =
      (run_retraining j2.model_name pipeline).success := by
  unfold run_retraining
  by_cases h : (pipeline { modelArg := none }).status = "success" <;> simp [h]
